import Mathlib

/-!
Shallow embedding of the WebSocket telemetry ingestion and fan-out core of
the hospital temperature-monitoring server (the `registerRoutes` WebSocket
section: module-level state `deviceLatestData` / `connectedClients`, the
`wss.on('connection')` handler with its `message` / `close` / `error`
listeners, the helper `broadcastToClients`, and the REST read
`GET /api/temperature/latest`).

Modelling choices, each tied to the source:
* Property access on a parsed JSON object yields `undefined` for a missing
  field, so inbound message fields are a three-way value type `JSVal`
  (undefined / string / number).  JSON numbers are modelled as integers:
  the gateway never does arithmetic on them — they are only stored,
  compared with `===` against string literals, and tested for truthiness
  (`message.timestamp || Date.now()`), and for numbers truthiness is
  exactly "nonzero".
* `deviceLatestData` is a JS `Map`; it is modelled as an association list
  with `Map.set` replacing in place (preserving position) and appending
  unseen keys, and `Map.get` returning the first (unique) match.
* `connectedClients` is a JS `Set` of websocket objects; websockets are
  identified by a `Nat` handle, the set is a duplicate-free list of
  handles, and the websocket objects themselves (`readyState`, received
  messages) live in a separate `clients` list.
* `client.send(json)` on an open socket either succeeds (the string is
  appended to the client's `inbox`) or fails at the transport level; the
  `ws` library surfaces a send failure as an `error` event, whose handler
  (source lines 207-210) removes the client from `connectedClients`.  The
  per-client flag `sendFails` selects that outcome, and the removal is
  modelled at the point of the failing send.
* `JSON.stringify` is modelled by `stringify`, reproducing key insertion
  order and the omission of properties whose value is `undefined`.
-/

namespace TempGateway

/-- A JavaScript runtime value as it flows through the gateway's frame
handling: `undefined` (in particular, any missing property of a parsed
JSON object), a string, or a number (modelled as an integer, see the
module docstring). -/
inductive JSVal where
  | undef : JSVal
  | str : String → JSVal
  | num : Int → JSVal
deriving DecidableEq

/-- JavaScript strict equality `v === "s"` of a runtime value against a
string literal, as used to dispatch on `message.type`. -/
def strictEqStr : JSVal → String → Bool
  | JSVal.str s, t => s == t
  | _, _ => false

/-- JavaScript falsiness restricted to the values of `JSVal`: `undefined`,
the empty string and the number `0` are falsy. -/
def falsy : JSVal → Bool
  | JSVal.undef => true
  | JSVal.str s => s == ""
  | JSVal.num n => n == 0

/-- The JavaScript `||` operator: `v || d` is `d` when `v` is falsy and
`v` otherwise (source line 170: `message.timestamp || Date.now()`). -/
def jsOr (v d : JSVal) : JSVal :=
  if falsy v then d else v

/-- An inbound frame after `JSON.parse`, seen through the property
accesses the handler performs.  Every field the handler reads is listed;
a property missing from the actual JSON object reads as `JSVal.undef`. -/
structure InboundMsg where
  type : JSVal
  deviceId : JSVal
  ambientTemp : JSVal
  objectTemp : JSVal
  timestamp : JSVal
  deviceName : JSVal
deriving DecidableEq

/-- The `DeviceData` record of the source (lines 120-125).  The
TypeScript interface declares the temperature fields as `number`, but the
handler copies `message.ambientTemp` etc. without validation, so at run
time the fields hold arbitrary JS values; they are therefore `JSVal`. -/
structure DeviceData where
  deviceId : JSVal
  ambientTemp : JSVal
  objectTemp : JSVal
  timestamp : JSVal
deriving DecidableEq

/-- The operation `deviceLatestData.set k v` (JS `Map.set`): replaces the entry in
place if the key is present, otherwise appends. -/
def mapSet (m : List (JSVal × DeviceData)) (k : JSVal) (v : DeviceData) :
    List (JSVal × DeviceData) :=
  if m.any (fun p => p.1 == k) then
    m.map (fun p => if p.1 == k then (k, v) else p)
  else
    m ++ [(k, v)]

/-- The operation `deviceLatestData.get k` (JS `Map.get`). -/
def mapGet (m : List (JSVal × DeviceData)) (k : JSVal) : Option DeviceData :=
  (m.find? (fun p => p.1 == k)).map (fun p => p.2)

/-- One websocket object: its process-local handle, its `readyState`
(`1` is `WebSocket.OPEN`), whether a send on it fails at the transport
level, and the ordered list of serialized messages it has received. -/
structure Client where
  id : Nat
  readyState : Nat
  sendFails : Bool
  inbox : List String
deriving DecidableEq

/-- The operation `connectedClients.add` (JS `Set.add`): no effect when the element is
already present. -/
def setAdd (s : List Nat) (id : Nat) : List Nat :=
  if s.contains id then s else s ++ [id]

/-- The operation `connectedClients.delete` (JS `Set.delete`). -/
def setDelete (s : List Nat) (id : Nat) : List Nat :=
  s.filter (fun x => x != id)

/-- Look a websocket object up by handle. -/
def findClient (cs : List Client) (id : Nat) : Option Client :=
  cs.find? (fun c => c.id == id)

/-- A successful `client.send(json)`: the serialized string is appended
to that client's inbox. -/
def pushInbox (cs : List Client) (id : Nat) (json : String) : List Client :=
  cs.map (fun c => if c.id == id then { c with inbox := c.inbox ++ [json] } else c)

/-- The module-level mutable state of the gateway: the device registry
`deviceLatestData`, the websocket objects, and the Subscriber Set
`connectedClients`. -/
structure GatewayState where
  deviceLatestData : List (JSVal × DeviceData)
  clients : List Client
  connectedClients : List Nat
deriving DecidableEq

/-- String content of a JSON string literal: `JSON.stringify` escaping of
backslash and double quote (the only escapes the gateway's payload strings
can need). -/
def jsonEscape (s : String) : String :=
  s.foldl
    (fun acc c =>
      if c == '\\' then acc ++ "\\\\"
      else if c == '"' then acc ++ "\\\""
      else acc.push c)
    ""

/-- A JSON string literal. -/
def jsonStr (s : String) : String :=
  "\"" ++ jsonEscape s ++ "\""

/-- One `name: value` member of a JSON object, as a singleton list, or the
empty list when the value is `undefined` — `JSON.stringify` omits such
properties. -/
def jsonField (name : String) : JSVal → List String
  | JSVal.undef => []
  | JSVal.str s => [jsonStr name ++ ":" ++ jsonStr s]
  | JSVal.num n => [jsonStr name ++ ":" ++ toString n]

/-- The `JSON.stringify` image of a `DeviceData` object, in key insertion order. -/
def jsonDeviceData (d : DeviceData) : String :=
  "\x7b" ++
    String.intercalate ","
      (jsonField "deviceId" d.deviceId ++ jsonField "ambientTemp" d.ambientTemp ++
        jsonField "objectTemp" d.objectTemp ++ jsonField "timestamp" d.timestamp) ++
    "\x7d"

/-- The three outbound payload shapes the gateway builds (source lines
179-183, 191-195 and 240-245). -/
inductive OutboundMsg where
  | temperatureUpdate : DeviceData → Int → OutboundMsg
  | handshakeAck : String → Int → OutboundMsg
  | alert : JSVal → JSVal → Int → OutboundMsg
deriving DecidableEq

/-- The `JSON.stringify` image of an outbound payload, in key insertion order. -/
def stringify : OutboundMsg → String
  | OutboundMsg.temperatureUpdate d ts =>
      "\x7b\"type\":\"temperature-update\",\"data\":" ++ jsonDeviceData d ++
        ",\"timestamp\":" ++ toString ts ++ "\x7d"
  | OutboundMsg.handshakeAck m ts =>
      "\x7b\"type\":\"handshake-ack\",\"message\":" ++ jsonStr m ++
        ",\"timestamp\":" ++ toString ts ++ "\x7d"
  | OutboundMsg.alert d m ts =>
      "\x7b" ++
        String.intercalate ","
          (["\"type\":\"alert\""] ++ jsonField "deviceId" d ++ jsonField "message" m ++
            ["\"timestamp\":" ++ toString ts]) ++
        "\x7d"

/-- One iteration of the `connectedClients.forEach` loop in
`broadcastToClients` (source lines 260-264): skip the client unless
`readyState === 1`; otherwise send.  A failing send surfaces as the
websocket `error` event whose handler (lines 207-210) deletes the client
from `connectedClients`. -/
def sendTo (st : GatewayState) (json : String) (id : Nat) : GatewayState :=
  match findClient st.clients id with
  | none => st
  | some c =>
      if c.readyState == 1 then
        if c.sendFails then
          { st with connectedClients := setDelete st.connectedClients id }
        else
          { st with clients := pushInbox st.clients id json }
      else
        st

/-- The helper `broadcastToClients` (source lines 258-265): serialize the payload
once, then iterate the Subscriber Set as of the start of the call. -/
def broadcastToClients (st : GatewayState) (m : OutboundMsg) : GatewayState :=
  let json := stringify m
  st.connectedClients.foldl (fun s id => sendTo s json id) st

/-- The `DeviceData` object literal built in the temperature branch
(source lines 166-171): fields copied from the message unvalidated, with
`timestamp: message.timestamp || Date.now()`. -/
def mkReading (message : InboundMsg) (now : Int) : DeviceData :=
  { deviceId := message.deviceId
    ambientTemp := message.ambientTemp
    objectTemp := message.objectTemp
    timestamp := jsOr message.timestamp (JSVal.num now) }

/-- An inbound frame: either bytes that fail `JSON.parse` (the `catch`
at lines 197-199 only logs), or a parsed value seen through its property
accesses. -/
inductive Frame where
  | malformed : Frame
  | parsed : InboundMsg → Frame
deriving DecidableEq

/-- The `websocket.on('message')` handler (source lines 160-200).
`senderId` is the handle of the websocket the frame arrived on and `now`
is `Date.now()` at receipt.  The temperature branch stores the reading
and broadcasts; the handshake branch replies to the sender only; any
other `type` (and any parse failure) leaves the state unchanged —
`storeTemperatureReading` and the `console` calls only log. -/
def onMessage (st : GatewayState) (senderId : Nat) (frame : Frame) (now : Int) :
    GatewayState :=
  match frame with
  | Frame.malformed => st
  | Frame.parsed message =>
      if strictEqStr message.type "temperature" then
        let deviceData := mkReading message now
        let st1 := { st with
          deviceLatestData := mapSet st.deviceLatestData message.deviceId deviceData }
        broadcastToClients st1 (OutboundMsg.temperatureUpdate deviceData now)
      else if strictEqStr message.type "handshake" then
        { st with
          clients := pushInbox st.clients senderId
            (stringify (OutboundMsg.handshakeAck "Welcome to Temperature Monitor" now)) }
      else
        st

/-- The `wss.on('connection')` handler (source lines 154-158): the new
websocket object comes into being and is added to `connectedClients`
unconditionally. -/
def onConnection (st : GatewayState) (c : Client) : GatewayState :=
  { st with
    clients := st.clients ++ [c]
    connectedClients := setAdd st.connectedClients c.id }

/-- The `websocket.on('close')` handler (source lines 202-205). -/
def onClose (st : GatewayState) (id : Nat) : GatewayState :=
  { st with connectedClients := setDelete st.connectedClients id }

/-- The `websocket.on('error')` handler (source lines 207-210). -/
def onError (st : GatewayState) (id : Nat) : GatewayState :=
  { st with connectedClients := setDelete st.connectedClients id }

/-- The endpoint `GET /api/temperature/latest?deviceId=...` (source lines 217-233):
a pure read of the registry at a string key. -/
def getLatest (st : GatewayState) (deviceId : String) : Option DeviceData :=
  mapGet st.deviceLatestData (JSVal.str deviceId)

/-- The inbox of the websocket with the given handle, if it exists. -/
def inboxOf (st : GatewayState) (id : Nat) : Option (List String) :=
  (findClient st.clients id).map Client.inbox

/-! Concrete websockets and states used to evaluate the theorems on
closed inputs. -/

/-- A healthy open websocket. -/
def okClient : Client := { id := 1, readyState := 1, sendFails := false, inbox := [] }

/-- An open websocket whose sends fail at the transport level. -/
def failClient : Client := { id := 2, readyState := 1, sendFails := true, inbox := [] }

/-- A websocket in the CLOSED state (readyState 3). -/
def closedClient : Client := { id := 3, readyState := 3, sendFails := false, inbox := [] }

/-- A gateway with the single healthy subscriber `okClient` and an empty
registry. -/
def baseState : GatewayState :=
  { deviceLatestData := [], clients := [okClient], connectedClients := [1] }

/-- A gateway with a healthy, a failing and a closed subscriber. -/
def demoState : GatewayState :=
  { deviceLatestData := []
    clients := [okClient, failClient, closedClient]
    connectedClients := [1, 2, 3] }

/-- The frame of spec scenario 3: `type` temperature, `deviceId` "D2",
`ambientTemp` and `objectTemp` missing. -/
def msgMissingTemps : InboundMsg :=
  { type := JSVal.str "temperature", deviceId := JSVal.str "D2",
    ambientTemp := JSVal.undef, objectTemp := JSVal.undef,
    timestamp := JSVal.undef, deviceName := JSVal.undef }

/-- A well-formed temperature frame whose `timestamp` field is the
number `0`. -/
def msgTimestampZero : InboundMsg :=
  { type := JSVal.str "temperature", deviceId := JSVal.str "D1",
    ambientTemp := JSVal.num 20, objectTemp := JSVal.num 30,
    timestamp := JSVal.num 0, deviceName := JSVal.undef }

/-- A well-formed temperature frame for device "D1" with timestamp 50. -/
def msgTempA : InboundMsg :=
  { type := JSVal.str "temperature", deviceId := JSVal.str "D1",
    ambientTemp := JSVal.num 21, objectTemp := JSVal.num 31,
    timestamp := JSVal.num 50, deviceName := JSVal.undef }

/-- A second well-formed temperature frame for device "D1", with an
earlier device timestamp than `msgTempA`. -/
def msgTempB : InboundMsg :=
  { type := JSVal.str "temperature", deviceId := JSVal.str "D1",
    ambientTemp := JSVal.num 22, objectTemp := JSVal.num 32,
    timestamp := JSVal.num 40, deviceName := JSVal.undef }

/-- A handshake frame. -/
def msgHandshake : InboundMsg :=
  { type := JSVal.str "handshake", deviceId := JSVal.str "D1",
    ambientTemp := JSVal.undef, objectTemp := JSVal.undef,
    timestamp := JSVal.undef, deviceName := JSVal.str "ESP32" }

/-! Helper lemmas about the embedded operations. -/

/-- Effect of a successful send on any lookup: the looked-up record is
the old one, with the string appended when it is the send's target. -/
theorem findClient_pushInbox (cs : List Client) (idPush idLook : Nat) (json : String) :
    findClient (pushInbox cs idPush json) idLook
      = (findClient cs idLook).map
          (fun c => if c.id == idPush then { c with inbox := c.inbox ++ [json] } else c) := by
  unfold findClient pushInbox
  rw [List.find?_map]
  have hpf :
      ((fun c : Client => c.id == idLook) ∘
        fun c => if c.id == idPush then { c with inbox := c.inbox ++ [json] } else c)
      = (fun c : Client => c.id == idLook) := by
    funext c
    by_cases h : (c.id == idPush) = true <;> simp [Function.comp, h]
  rw [hpf]

/-- A successful send appends exactly one copy of the string to the
target's inbox. -/
theorem findClient_pushInbox_self (cs : List Client) (id : Nat) (json : String) :
    findClient (pushInbox cs id json) id
      = (findClient cs id).map (fun c => { c with inbox := c.inbox ++ [json] }) := by
  rw [findClient_pushInbox]
  cases hf : findClient cs id with
  | none => rfl
  | some c =>
    have hc : (c.id == id) = true := by
      have h2 := List.find?_some (show List.find? (fun c => c.id == id) cs = some c from hf)
      exact h2
    have hcid : c.id = id := by simpa using hc
    simp [hcid]

/-- A send to one websocket leaves every other websocket's record
untouched. -/
theorem findClient_pushInbox_ne (cs : List Client) (id id' : Nat) (json : String)
    (h : id' ≠ id) :
    findClient (pushInbox cs id' json) id = findClient cs id := by
  rw [findClient_pushInbox]
  cases hf : findClient cs id with
  | none => rfl
  | some c =>
    have hc : (c.id == id) = true := by
      have h2 := List.find?_some (show List.find? (fun c => c.id == id) cs = some c from hf)
      exact h2
    have hcid : c.id = id := by simpa using hc
    have hne : ¬ c.id = id' := fun e => h (e.symm.trans hcid)
    simp [hne]

/-- One fan-out iteration never touches the device registry. -/
theorem sendTo_deviceLatestData (st : GatewayState) (json : String) (id : Nat) :
    (sendTo st json id).deviceLatestData = st.deviceLatestData := by
  unfold sendTo
  cases findClient st.clients id with
  | none => rfl
  | some c =>
    by_cases h1 : c.readyState == 1 <;> by_cases h2 : c.sendFails <;> simp [h1, h2]

/-- The whole fan-out loop never touches the device registry. -/
theorem foldl_sendTo_deviceLatestData (json : String) (l : List Nat) (st : GatewayState) :
    (l.foldl (fun s id => sendTo s json id) st).deviceLatestData = st.deviceLatestData := by
  induction l generalizing st with
  | nil => rfl
  | cons a l ih => rw [List.foldl_cons, ih, sendTo_deviceLatestData]

/-- The helper `broadcastToClients` never touches the device registry. -/
theorem broadcastToClients_deviceLatestData (st : GatewayState) (m : OutboundMsg) :
    (broadcastToClients st m).deviceLatestData = st.deviceLatestData := by
  unfold broadcastToClients
  exact foldl_sendTo_deviceLatestData _ _ _

/-- A fan-out iteration for one handle leaves every other websocket's
record untouched. -/
theorem sendTo_findClient_ne (st : GatewayState) (json : String) (id id' : Nat)
    (h : id' ≠ id) :
    findClient (sendTo st json id').clients id = findClient st.clients id := by
  unfold sendTo
  cases findClient st.clients id' with
  | none => rfl
  | some c =>
    by_cases h1 : c.readyState == 1 <;> by_cases h2 : c.sendFails <;>
      simp [h1, h2, findClient_pushInbox_ne st.clients id id' json h]

/-- A fan-out iteration never adds handles to the Subscriber Set. -/
theorem sendTo_connected_mono (st : GatewayState) (json : String) (id x : Nat)
    (h : x ∈ (sendTo st json id).connectedClients) : x ∈ st.connectedClients := by
  unfold sendTo at h
  cases hf : findClient st.clients id with
  | none => rw [hf] at h; exact h
  | some c =>
    rw [hf] at h
    by_cases h1 : (c.readyState == 1) = true
    · by_cases h2 : c.sendFails = true
      · simp only [h1, h2, if_true] at h
        exact List.mem_of_mem_filter h
      · simp only [h1, h2, if_true, if_false, Bool.false_eq_true] at h
        exact h
    · simp only [h1, if_false, Bool.false_eq_true] at h
      exact h

/-- The fan-out loop never adds handles to the Subscriber Set. -/
theorem foldl_sendTo_connected_mono (json : String) (l : List Nat) (st : GatewayState)
    (x : Nat) (h : x ∈ (l.foldl (fun s id => sendTo s json id) st).connectedClients) :
    x ∈ st.connectedClients := by
  induction l generalizing st with
  | nil => exact h
  | cons a l ih => exact sendTo_connected_mono st json a x (ih _ h)

/-- A fan-out iteration on an open, healthy target appends the string to
its inbox. -/
theorem sendTo_delivers (st : GatewayState) (json : String) (id : Nat) (c : Client)
    (hfind : findClient st.clients id = some c)
    (hopen : c.readyState = 1) (hok : c.sendFails = false) :
    findClient (sendTo st json id).clients id
      = some { c with inbox := c.inbox ++ [json] } := by
  unfold sendTo
  rw [hfind]
  simp [hopen, hok, findClient_pushInbox_self, hfind]

/-- A fan-out iteration on a target that is not open does nothing. -/
theorem sendTo_skips (st : GatewayState) (json : String) (id : Nat) (c : Client)
    (hfind : findClient st.clients id = some c) (hopen : c.readyState ≠ 1) :
    sendTo st json id = st := by
  unfold sendTo
  rw [hfind]
  simp [hopen]

/-- A fan-out iteration on an open target whose send fails removes it
from the Subscriber Set and changes nothing else. -/
theorem sendTo_fails (st : GatewayState) (json : String) (id : Nat) (c : Client)
    (hfind : findClient st.clients id = some c)
    (hopen : c.readyState = 1) (hfail : c.sendFails = true) :
    sendTo st json id = { st with connectedClients := setDelete st.connectedClients id } := by
  unfold sendTo
  rw [hfind]
  simp [hopen, hfail]

/-- The fan-out loop leaves the record of any handle outside the
iterated list untouched. -/
theorem foldl_sendTo_findClient_not_mem (json : String) (l : List Nat)
    (st : GatewayState) (id : Nat) (h : id ∉ l) :
    findClient (l.foldl (fun s i => sendTo s json i) st).clients id
      = findClient st.clients id := by
  induction l generalizing st with
  | nil => rfl
  | cons a l ih =>
    have ha : a ≠ id := fun e => h (e ▸ List.mem_cons_self a l)
    have hl : id ∉ l := fun e => h (List.mem_cons_of_mem a e)
    rw [List.foldl_cons, ih _ hl, sendTo_findClient_ne st json id a ha]

/-- Fan-out delivery: an open, healthy member of a duplicate-free
iteration list receives exactly one copy of the string. -/
theorem foldl_sendTo_delivers (json : String) (l : List Nat) (st : GatewayState)
    (id : Nat) (c : Client) (hfind : findClient st.clients id = some c)
    (hopen : c.readyState = 1) (hok : c.sendFails = false)
    (hmem : id ∈ l) (hnd : l.Nodup) :
    findClient (l.foldl (fun s i => sendTo s json i) st).clients id
      = some { c with inbox := c.inbox ++ [json] } := by
  induction l generalizing st with
  | nil => cases hmem
  | cons a l ih =>
    rw [List.foldl_cons]
    by_cases ha : a = id
    · subst ha
      have hnotl : a ∉ l := (List.nodup_cons.mp hnd).1
      rw [foldl_sendTo_findClient_not_mem json l _ a hnotl]
      exact sendTo_delivers st json a c hfind hopen hok
    · have hl : id ∈ l := by
        cases List.mem_cons.mp hmem with
        | inl h => exact absurd h.symm ha
        | inr h => exact h
      have hfind' : findClient (sendTo st json a).clients id = some c := by
        rw [sendTo_findClient_ne st json id a ha]; exact hfind
      exact ih _ hfind' hl (List.nodup_cons.mp hnd).2

/-- The fan-out loop leaves the record of a member that is not open
untouched (it is skipped at its own iteration). -/
theorem foldl_sendTo_preserve_notopen (json : String) (l : List Nat)
    (st : GatewayState) (id : Nat) (c : Client)
    (hfind : findClient st.clients id = some c) (hopen : c.readyState ≠ 1) :
    findClient (l.foldl (fun s i => sendTo s json i) st).clients id = some c := by
  induction l generalizing st with
  | nil => exact hfind
  | cons a l ih =>
    rw [List.foldl_cons]
    by_cases ha : a = id
    · subst ha
      rw [sendTo_skips st json a c hfind hopen] at *
      exact ih st hfind
    · have hfind' : findClient (sendTo st json a).clients id = some c := by
        rw [sendTo_findClient_ne st json id a ha]; exact hfind
      exact ih _ hfind'

/-- A handle absent from the Subscriber Set stays absent through the
fan-out loop. -/
theorem foldl_sendTo_not_connected (json : String) (l : List Nat) (st : GatewayState)
    (id : Nat) (h : id ∉ st.connectedClients) :
    id ∉ (l.foldl (fun s i => sendTo s json i) st).connectedClients :=
  fun hmem => h (foldl_sendTo_connected_mono json l st id hmem)

/-- An open member whose sends fail is removed from the Subscriber Set by
the fan-out loop. -/
theorem foldl_sendTo_removes_failing (json : String) (l : List Nat) (st : GatewayState)
    (id : Nat) (c : Client) (hfind : findClient st.clients id = some c)
    (hopen : c.readyState = 1) (hfail : c.sendFails = true) (hmem : id ∈ l) :
    id ∉ (l.foldl (fun s i => sendTo s json i) st).connectedClients := by
  induction l generalizing st with
  | nil => cases hmem
  | cons a l ih =>
    rw [List.foldl_cons]
    by_cases ha : a = id
    · subst ha
      rw [sendTo_fails st json a c hfind hopen hfail]
      apply foldl_sendTo_not_connected
      simp [setDelete]
    · have hl : id ∈ l := by
        cases List.mem_cons.mp hmem with
        | inl h => exact absurd h.symm ha
        | inr h => exact h
      have hfind' : findClient (sendTo st json a).clients id = some c := by
        rw [sendTo_findClient_ne st json id a ha]; exact hfind
      exact ih _ hfind' hl

/-- A fan-out iteration on an open, healthy target only appends to that
target's inbox. -/
theorem sendTo_push (st : GatewayState) (json : String) (id : Nat) (c : Client)
    (hfind : findClient st.clients id = some c)
    (hopen : c.readyState = 1) (hok : c.sendFails = false) :
    sendTo st json id = { st with clients := pushInbox st.clients id json } := by
  unfold sendTo
  rw [hfind]
  simp [hopen, hok]

/-- A member whose sends succeed is never removed from the Subscriber Set
by a fan-out iteration. -/
theorem sendTo_mem_preserved (st : GatewayState) (json : String) (i id : Nat) (c : Client)
    (hfind : findClient st.clients id = some c) (hok : c.sendFails = false)
    (hmem : id ∈ st.connectedClients) :
    id ∈ (sendTo st json i).connectedClients := by
  unfold sendTo
  cases hf : findClient st.clients i with
  | none => exact hmem
  | some d =>
    by_cases h1 : (d.readyState == 1) = true
    · by_cases h2 : d.sendFails = true
      · have hne : id ≠ i := by
          intro e
          rw [← e] at hf
          rw [hfind] at hf
          have hcd : c = d := Option.some.inj hf
          rw [← hcd] at h2
          rw [hok] at h2
          cases h2
        simp only [h1, h2, if_true]
        simp [setDelete, List.mem_filter, hmem, hne]
      · simp only [h1, h2, if_true, Bool.false_eq_true, if_false]
        exact hmem
    · simp only [h1, Bool.false_eq_true, if_false]
      exact hmem

/-- A member whose sends succeed is never removed from the Subscriber Set
by the fan-out loop. -/
theorem foldl_sendTo_mem_preserved (json : String) (l : List Nat) (st : GatewayState)
    (id : Nat) (c : Client)
    (hfind : findClient st.clients id = some c) (hok : c.sendFails = false)
    (hmem : id ∈ st.connectedClients) :
    id ∈ (l.foldl (fun s i => sendTo s json i) st).connectedClients := by
  induction l generalizing st c with
  | nil => exact hmem
  | cons a l ih =>
    rw [List.foldl_cons]
    by_cases ha : a = id
    · subst ha
      by_cases hopen : c.readyState = 1
      · rw [sendTo_push st json a c hfind hopen hok]
        refine ih _ { c with inbox := c.inbox ++ [json] } ?_ hok hmem
        rw [show ({ st with clients := pushInbox st.clients a json } : GatewayState).clients
              = pushInbox st.clients a json from rfl]
        rw [findClient_pushInbox_self, hfind]
        rfl
      · rw [sendTo_skips st json a c hfind hopen]
        exact ih _ c hfind hok hmem
    · have hfind' : findClient (sendTo st json a).clients id = some c := by
        rw [sendTo_findClient_ne st json id a ha]
        exact hfind
      exact ih _ c hfind' hok (sendTo_mem_preserved st json a id c hfind hok hmem)

/-- Adding an element with `Set.add` makes it a member. -/
theorem mem_setAdd_self (s : List Nat) (id : Nat) : id ∈ setAdd s id := by
  unfold setAdd
  by_cases h : s.contains id = true
  · rw [if_pos h]
    simpa using h
  · rw [if_neg h]
    simp

/-- Deleting the same element twice from the Subscriber Set is the same
as deleting it once. -/
theorem setDelete_idem (s : List Nat) (id : Nat) :
    setDelete (setDelete s id) id = setDelete s id := by
  unfold setDelete
  rw [List.filter_filter]
  congr 1
  funext x
  exact Bool.and_self _

/-- Deleting an element that is not a member leaves the Subscriber Set
unchanged. -/
theorem setDelete_of_not_mem (s : List Nat) (id : Nat) (h : id ∉ s) :
    setDelete s id = s := by
  unfold setDelete
  apply List.filter_eq_self.mpr
  intro a ha
  simp only [bne_iff_ne, ne_eq]
  exact fun e => h (e ▸ ha)

/-- The temperature branch of the message handler, unfolded: store the
unvalidated reading in the registry, then broadcast it. -/
theorem onMessage_temperature (st : GatewayState) (sid : Nat) (msg : InboundMsg)
    (now : Int) (htype : msg.type = JSVal.str "temperature") :
    onMessage st sid (Frame.parsed msg) now
      = broadcastToClients
          { st with
            deviceLatestData := mapSet st.deviceLatestData msg.deviceId (mkReading msg now) }
          (OutboundMsg.temperatureUpdate (mkReading msg now) now) := by
  simp [onMessage, htype, strictEqStr]

/-- The handshake branch of the message handler, unfolded: one direct
reply to the sender, nothing else. -/
theorem onMessage_handshake (st : GatewayState) (sid : Nat) (msg : InboundMsg)
    (now : Int) (htype : msg.type = JSVal.str "handshake") :
    onMessage st sid (Frame.parsed msg) now
      = { st with
          clients := pushInbox st.clients sid
            (stringify (OutboundMsg.handshakeAck "Welcome to Temperature Monitor" now)) } := by
  simp [onMessage, htype, strictEqStr]

/-- A `Map.set` followed by `Map.get` at the same key yields exactly the
stored value: the update is an unconditional overwrite. -/
theorem mapGet_mapSet_self (m : List (JSVal × DeviceData)) (k : JSVal) (v : DeviceData) :
    mapGet (mapSet m k v) k = some v := by
  unfold mapSet
  by_cases h : (m.any fun p => p.1 == k) = true
  · rw [if_pos h]
    unfold mapGet
    rw [List.find?_map]
    have hpf :
        ((fun p : JSVal × DeviceData => p.1 == k) ∘ fun p => if p.1 == k then (k, v) else p)
        = fun p : JSVal × DeviceData => p.1 == k := by
      funext p
      by_cases hp : (p.1 == k) = true <;> simp [Function.comp, hp]
    rw [hpf]
    have hsome : (List.find? (fun p : JSVal × DeviceData => p.1 == k) m).isSome := by
      rw [List.find?_isSome]
      exact List.any_eq_true.mp h
    obtain ⟨q, hq⟩ := Option.isSome_iff_exists.mp hsome
    have hqk : q.1 = k := by
      have h2 := List.find?_some hq
      simpa using h2
    rw [hq]
    simp [hqk]
  · rw [if_neg h]
    unfold mapGet
    rw [List.find?_append]
    have hnone : List.find? (fun p : JSVal × DeviceData => p.1 == k) m = none := by
      rw [List.find?_eq_none]
      intro x hx hpx
      exact h (List.any_eq_true.mpr ⟨x, hx, hpx⟩)
    rw [hnone]
    simp

/-- Fan-out delivery at the `Publish` level: an open member of the Subscriber Set whose sends
succeed receives exactly one copy of the serialized event. -/
theorem broadcastToClients_delivers (st : GatewayState) (m : OutboundMsg) (id : Nat)
    (c : Client) (hfind : findClient st.clients id = some c)
    (hopen : c.readyState = 1) (hok : c.sendFails = false)
    (hmem : id ∈ st.connectedClients) (hnd : st.connectedClients.Nodup) :
    inboxOf (broadcastToClients st m) id = some (c.inbox ++ [stringify m]) := by
  unfold broadcastToClients inboxOf
  rw [foldl_sendTo_delivers (stringify m) st.connectedClients st id c hfind hopen hok hmem hnd]
  rfl

/-- A `Publish` skips members that are not in the Open state: their inbox
is untouched. -/
theorem broadcastToClients_skips (st : GatewayState) (m : OutboundMsg) (id : Nat)
    (c : Client) (hfind : findClient st.clients id = some c)
    (hopen : c.readyState ≠ 1) :
    inboxOf (broadcastToClients st m) id = some c.inbox := by
  unfold broadcastToClients inboxOf
  rw [foldl_sendTo_preserve_notopen (stringify m) st.connectedClients st id c hfind hopen]
  rfl

/-- A `Publish` removes an open member whose sends fail from the Subscriber
Set. -/
theorem broadcastToClients_removes_failing (st : GatewayState) (m : OutboundMsg)
    (id : Nat) (c : Client) (hfind : findClient st.clients id = some c)
    (hopen : c.readyState = 1) (hfail : c.sendFails = true)
    (hmem : id ∈ st.connectedClients) :
    id ∉ (broadcastToClients st m).connectedClients := by
  unfold broadcastToClients
  exact foldl_sendTo_removes_failing (stringify m) st.connectedClients st id c hfind hopen hfail hmem

/-- A direct reply appends exactly one string to the target's inbox, at
the state level. -/
theorem inboxOf_push (st : GatewayState) (id : Nat) (json : String) :
    inboxOf { st with clients := pushInbox st.clients id json } id
      = (inboxOf st id).map (fun ib => ib ++ [json]) := by
  unfold inboxOf
  rw [show findClient ({ st with clients := pushInbox st.clients id json } : GatewayState).clients id = findClient (pushInbox st.clients id json) id from rfl]
  rw [findClient_pushInbox_self]
  cases findClient st.clients id <;> rfl

/-- A direct reply leaves every other connection's record untouched, at
the state level. -/
theorem findClient_push_ne (st : GatewayState) (id i : Nat) (json : String)
    (h : i ≠ id) :
    findClient ({ st with clients := pushInbox st.clients id json } : GatewayState).clients i
      = findClient st.clients i :=
  findClient_pushInbox_ne st.clients i id json (Ne.symm h)

/-- A `Publish` never removes a member whose sends succeed from the
Subscriber Set. -/
theorem broadcastToClients_mem_preserved (st : GatewayState) (m : OutboundMsg)
    (id : Nat) (c : Client) (hfind : findClient st.clients id = some c)
    (hok : c.sendFails = false) (hmem : id ∈ st.connectedClients) :
    id ∈ (broadcastToClients st m).connectedClients := by
  unfold broadcastToClients
  exact foldl_sendTo_mem_preserved (stringify m) st.connectedClients st id c hfind hok hmem

/-! The claims. -/

/-- C1 is false of the code at a concrete input: the temperature branch
performs no validation, so the frame of spec scenario 3 (type
"temperature", deviceId "D2", `ambientTemp` and `objectTemp` missing) is
NOT dropped — afterwards `GetLatest("D2")` is not absent (the registry was
mutated) and the sole subscriber's inbox is no longer empty (a broadcast
was delivered). -/
theorem C1_counterexample :
    getLatest (onMessage baseState 1 (Frame.parsed msgMissingTemps) 1000) "D2" ≠ none ∧
    inboxOf (onMessage baseState 1 (Frame.parsed msgMissingTemps) 1000) 1 ≠ some [] := by
  decide

/-- C1 (amended): the temperature branch validates nothing: an inbound
frame with type "temperature" missing any of deviceId, ambientTemp or
objectTemp is processed all the same — the registry entry at the frame's
`deviceId` is unconditionally overwritten with a reading carrying
`undefined` in the missing fields (so `GetLatest` of that deviceId returns
it rather than absent), the resulting temperature-update is broadcast to
every open subscriber whose sends succeed, and the connection remains in
the Subscriber Set. -/
theorem C1_no_field_validation (st : GatewayState) (sid : Nat) (msg : InboundMsg)
    (now : Int) (mid : Nat) (mc : Client) (sc : Client)
    (htype : msg.type = JSVal.str "temperature")
    (hfind : findClient st.clients mid = some mc)
    (hopen : mc.readyState = 1) (hok : mc.sendFails = false)
    (hmem : mid ∈ st.connectedClients) (hnd : st.connectedClients.Nodup)
    (hsfind : findClient st.clients sid = some sc)
    (hsok : sc.sendFails = false) (hsmem : sid ∈ st.connectedClients) :
    mapGet (onMessage st sid (Frame.parsed msg) now).deviceLatestData msg.deviceId
      = some (mkReading msg now) ∧
    inboxOf (onMessage st sid (Frame.parsed msg) now) mid
      = some (mc.inbox ++ [stringify (OutboundMsg.temperatureUpdate (mkReading msg now) now)]) ∧
    sid ∈ (onMessage st sid (Frame.parsed msg) now).connectedClients := by
  rw [onMessage_temperature st sid msg now htype]
  refine ⟨?_, ?_, ?_⟩
  · rw [show (broadcastToClients
        { st with deviceLatestData := mapSet st.deviceLatestData msg.deviceId (mkReading msg now) }
        (OutboundMsg.temperatureUpdate (mkReading msg now) now)).deviceLatestData
        = mapSet st.deviceLatestData msg.deviceId (mkReading msg now)
      from broadcastToClients_deviceLatestData _ _]
    exact mapGet_mapSet_self _ _ _
  · exact broadcastToClients_delivers _ _ mid mc hfind hopen hok hmem hnd
  · exact broadcastToClients_mem_preserved _ _ sid sc hsfind hsok hsmem

/-- Witness for C1 (amended): the scenario-3 frame on a gateway with one
healthy subscriber (which is also the sender). -/
theorem C1_no_field_validation_witness :
    mapGet (onMessage baseState 1 (Frame.parsed msgMissingTemps) 1000).deviceLatestData
        (JSVal.str "D2")
      = some (mkReading msgMissingTemps 1000) ∧
    inboxOf (onMessage baseState 1 (Frame.parsed msgMissingTemps) 1000) 1
      = some [stringify (OutboundMsg.temperatureUpdate (mkReading msgMissingTemps 1000) 1000)] ∧
    1 ∈ (onMessage baseState 1 (Frame.parsed msgMissingTemps) 1000).connectedClients :=
  C1_no_field_validation baseState 1 msgMissingTemps 1000 1 okClient okClient
    (by decide) (by decide) (by decide) (by decide) (by decide) (by decide)
    (by decide) (by decide) (by decide)

/-- C2: `Publish(event)` serializes the event once and sends that one
serialized form: every member of the Subscriber Set in the Open state
(whose transport sends succeed) receives exactly one copy of
`stringify event`, and every member not in the Open state is skipped —
its inbox is untouched and no error arises (the fan-out is a total
function). -/
theorem C2_publish_fanout (st : GatewayState) (m : OutboundMsg) (id : Nat) (c : Client)
    (hfind : findClient st.clients id = some c) (hmem : id ∈ st.connectedClients)
    (hnd : st.connectedClients.Nodup) :
    (c.readyState = 1 → c.sendFails = false →
      inboxOf (broadcastToClients st m) id = some (c.inbox ++ [stringify m])) ∧
    (c.readyState ≠ 1 → inboxOf (broadcastToClients st m) id = some c.inbox) := by
  constructor
  · intro hopen hok
    exact broadcastToClients_delivers st m id c hfind hopen hok hmem hnd
  · intro hopen
    exact broadcastToClients_skips st m id c hfind hopen

/-- Witness for C2: publishing an alert to a gateway with a healthy open
subscriber and a CLOSED subscriber. -/
theorem C2_publish_fanout_witness :
    inboxOf (broadcastToClients demoState (OutboundMsg.alert (JSVal.str "D1") (JSVal.str "hot") 7)) 1
      = some [stringify (OutboundMsg.alert (JSVal.str "D1") (JSVal.str "hot") 7)] ∧
    inboxOf (broadcastToClients demoState (OutboundMsg.alert (JSVal.str "D1") (JSVal.str "hot") 7)) 3
      = some [] :=
  ⟨(C2_publish_fanout demoState (OutboundMsg.alert (JSVal.str "D1") (JSVal.str "hot") 7) 1 okClient
      (by decide) (by decide) (by decide)).1 (by decide) (by decide),
   (C2_publish_fanout demoState (OutboundMsg.alert (JSVal.str "D1") (JSVal.str "hot") 7) 3 closedClient
      (by decide) (by decide) (by decide)).2 (by decide)⟩

/-- C3: last-write-wins by arrival order: after two temperature frames
for the same deviceId are processed, `GetLatest` returns the reading of
whichever was processed last, regardless of the frames' own timestamps;
and `Map.set` (the registry's Update) unconditionally replaces any
existing entry. -/
theorem C3_last_write_wins (st : GatewayState) (s1 s2 : Nat) (m1 m2 : InboundMsg)
    (t1 t2 : Int) (d : String)
    (h1 : m1.type = JSVal.str "temperature") (h2 : m2.type = JSVal.str "temperature")
    (hd1 : m1.deviceId = JSVal.str d) (hd2 : m2.deviceId = JSVal.str d) :
    getLatest (onMessage (onMessage st s1 (Frame.parsed m1) t1) s2 (Frame.parsed m2) t2) d
      = some (mkReading m2 t2) ∧
    ∀ (mm : List (JSVal × DeviceData)) (k : JSVal) (v : DeviceData),
      mapGet (mapSet mm k v) k = some v := by
  constructor
  · rw [onMessage_temperature _ s2 m2 t2 h2]
    unfold getLatest
    rw [broadcastToClients_deviceLatestData]
    rw [show ({ (onMessage st s1 (Frame.parsed m1) t1) with
          deviceLatestData := mapSet (onMessage st s1 (Frame.parsed m1) t1).deviceLatestData
            m2.deviceId (mkReading m2 t2) } : GatewayState).deviceLatestData
        = mapSet (onMessage st s1 (Frame.parsed m1) t1).deviceLatestData
            m2.deviceId (mkReading m2 t2) from rfl]
    rw [hd2]
    exact mapGet_mapSet_self _ _ _
  · exact fun mm k v => mapGet_mapSet_self mm k v

/-- Witness for C3: two frames for device "D1"; the second processed has
the earlier device timestamp (40 < 50) and still wins. -/
theorem C3_last_write_wins_witness :
    getLatest (onMessage (onMessage baseState 1 (Frame.parsed msgTempA) 100) 1
        (Frame.parsed msgTempB) 200) "D1"
      = some (mkReading msgTempB 200) :=
  (C3_last_write_wins baseState 1 1 msgTempA msgTempB 100 200 "D1"
    (by decide) (by decide) (by decide) (by decide)).1

/-- C4: a frame that does not parse as JSON is dropped by the `catch`
(which only logs): the gateway state — registry, Subscriber Set and every
connection — is unchanged, so no broadcast occurs and the connection is
not closed, and a subsequent frame on the same (or any) connection is
processed exactly as it would have been without the malformed one. -/
theorem C4_malformed_frame_dropped (st : GatewayState) (sid sid2 : Nat)
    (now now2 : Int) (f : Frame) :
    onMessage st sid Frame.malformed now = st ∧
    onMessage (onMessage st sid Frame.malformed now) sid2 f now2
      = onMessage st sid2 f now2 :=
  ⟨rfl, rfl⟩

/-- C5: a send failure to one subscriber during `Publish` does not
prevent delivery to the other open subscribers in the same call (the
healthy subscriber still receives exactly one copy), does not propagate
as a failure of `Publish` (the fan-out is a total function on states),
and the failing subscriber ends up removed from the Subscriber Set. -/
theorem C5_send_failure_isolated (st : GatewayState) (m : OutboundMsg) (fid cid : Nat)
    (fc cc : Client)
    (hff : findClient st.clients fid = some fc) (hfo : fc.readyState = 1)
    (hfail : fc.sendFails = true) (hfm : fid ∈ st.connectedClients)
    (hcf : findClient st.clients cid = some cc) (hco : cc.readyState = 1)
    (hcok : cc.sendFails = false) (hcm : cid ∈ st.connectedClients)
    (hnd : st.connectedClients.Nodup) :
    inboxOf (broadcastToClients st m) cid = some (cc.inbox ++ [stringify m]) ∧
    fid ∉ (broadcastToClients st m).connectedClients :=
  ⟨broadcastToClients_delivers st m cid cc hcf hco hcok hcm hnd,
   broadcastToClients_removes_failing st m fid fc hff hfo hfail hfm⟩

/-- Witness for C5: scenario 5 of the spec — subscriber 2's send fails
while subscriber 1 is also subscribed; 1 still receives the event and 2
is afterwards absent from the Subscriber Set. -/
theorem C5_send_failure_isolated_witness :
    inboxOf (broadcastToClients demoState (OutboundMsg.alert (JSVal.str "D9") (JSVal.str "hi") 3)) 1
      = some [stringify (OutboundMsg.alert (JSVal.str "D9") (JSVal.str "hi") 3)] ∧
    2 ∉ (broadcastToClients demoState (OutboundMsg.alert (JSVal.str "D9") (JSVal.str "hi") 3)).connectedClients :=
  C5_send_failure_isolated demoState (OutboundMsg.alert (JSVal.str "D9") (JSVal.str "hi") 3)
    2 1 failClient okClient (by decide) (by decide) (by decide) (by decide)
    (by decide) (by decide) (by decide) (by decide) (by decide)

/-- C6: a handshake frame produces exactly one reply — the serialized
`handshake-ack` payload — appended to the originating connection's inbox
only: the registry is unchanged, the Subscriber Set is unchanged, and
every other connection's record (state and inbox) is untouched. -/
theorem C6_handshake_reply (st : GatewayState) (sid : Nat) (msg : InboundMsg) (now : Int)
    (htype : msg.type = JSVal.str "handshake") :
    (onMessage st sid (Frame.parsed msg) now).deviceLatestData = st.deviceLatestData ∧
    (onMessage st sid (Frame.parsed msg) now).connectedClients = st.connectedClients ∧
    inboxOf (onMessage st sid (Frame.parsed msg) now) sid
      = (inboxOf st sid).map
          (fun ib => ib ++ [stringify (OutboundMsg.handshakeAck "Welcome to Temperature Monitor" now)]) ∧
    ∀ i, i ≠ sid →
      findClient (onMessage st sid (Frame.parsed msg) now).clients i
        = findClient st.clients i := by
  rw [onMessage_handshake st sid msg now htype]
  exact ⟨rfl, rfl,
    inboxOf_push st sid (stringify (OutboundMsg.handshakeAck "Welcome to Temperature Monitor" now)),
    fun i hi => findClient_push_ne st sid i
      (stringify (OutboundMsg.handshakeAck "Welcome to Temperature Monitor" now)) hi⟩

/-- Witness for C6: a handshake on the one-subscriber gateway. -/
theorem C6_handshake_reply_witness :
    inboxOf (onMessage baseState 1 (Frame.parsed msgHandshake) 5) 1
      = some [stringify (OutboundMsg.handshakeAck "Welcome to Temperature Monitor" 5)] ∧
    (onMessage baseState 1 (Frame.parsed msgHandshake) 5).connectedClients = [1] := by
  have h := C6_handshake_reply baseState 1 msgHandshake 5 (by decide)
  exact ⟨by rw [h.2.2.1]; rfl, h.2.1⟩

/-- C7 is false of the code at a concrete input: a temperature frame
whose `timestamp` field is present as the number 0 does not keep 0 — the
`||` default makes the stored reading carry the gateway receipt time
(here 999) instead. -/
theorem C7_counterexample :
    (getLatest (onMessage baseState 1 (Frame.parsed msgTimestampZero) 999) "D1").map
        DeviceData.timestamp
      ≠ some (JSVal.num 0) ∧
    (getLatest (onMessage baseState 1 (Frame.parsed msgTimestampZero) 999) "D1").map
        DeviceData.timestamp
      = some (JSVal.num 999) := by
  decide

/-- C7 (amended): the stored reading's timestamp is
`message.timestamp || Date.now()`: the frame's own timestamp whenever it
is truthy — in particular any nonzero number — and the gateway receipt
time when the field is absent OR when it is the (falsy) number 0. -/
theorem C7_timestamp_fallback (st : GatewayState) (sid : Nat) (msg : InboundMsg)
    (now : Int) (htype : msg.type = JSVal.str "temperature") :
    (mapGet (onMessage st sid (Frame.parsed msg) now).deviceLatestData msg.deviceId).map
        DeviceData.timestamp
      = some (jsOr msg.timestamp (JSVal.num now)) ∧
    (∀ n : Int, n ≠ 0 → jsOr (JSVal.num n) (JSVal.num now) = JSVal.num n) ∧
    jsOr JSVal.undef (JSVal.num now) = JSVal.num now ∧
    jsOr (JSVal.num 0) (JSVal.num now) = JSVal.num now := by
  refine ⟨?_, ?_, by simp [jsOr, falsy], by simp [jsOr, falsy]⟩
  · rw [onMessage_temperature st sid msg now htype]
    rw [show (broadcastToClients
        { st with deviceLatestData := mapSet st.deviceLatestData msg.deviceId (mkReading msg now) }
        (OutboundMsg.temperatureUpdate (mkReading msg now) now)).deviceLatestData
        = mapSet st.deviceLatestData msg.deviceId (mkReading msg now)
      from broadcastToClients_deviceLatestData _ _]
    rw [mapGet_mapSet_self]
    rfl
  · intro n hn
    simp [jsOr, falsy, hn]

/-- Witness for C7 (amended): the zero-timestamp frame at receipt time
999 stores `jsOr` of its timestamp, i.e. 999. -/
theorem C7_timestamp_fallback_witness :
    (mapGet (onMessage baseState 1 (Frame.parsed msgTimestampZero) 999).deviceLatestData
        (JSVal.str "D1")).map DeviceData.timestamp
      = some (jsOr msgTimestampZero.timestamp (JSVal.num 999)) :=
  (C7_timestamp_fallback baseState 1 msgTimestampZero 999 (by decide)).1

/-- C8: acceptance registers the connection in the Subscriber Set
unconditionally, and connections that emit telemetry are not filtered
out of broadcasts: the sender of a valid temperature frame, being an
open member of the Subscriber Set, itself receives the temperature-update
produced from its own frame. -/
theorem C8_devices_are_subscribers (st : GatewayState) (c : Client)
    (st2 : GatewayState) (sid : Nat) (msg : InboundMsg) (now : Int) (sc : Client)
    (htype : msg.type = JSVal.str "temperature")
    (hfind : findClient st2.clients sid = some sc)
    (hopen : sc.readyState = 1) (hok : sc.sendFails = false)
    (hmem : sid ∈ st2.connectedClients) (hnd : st2.connectedClients.Nodup) :
    c.id ∈ (onConnection st c).connectedClients ∧
    inboxOf (onMessage st2 sid (Frame.parsed msg) now) sid
      = some (sc.inbox ++ [stringify (OutboundMsg.temperatureUpdate (mkReading msg now) now)]) := by
  refine ⟨mem_setAdd_self st.connectedClients c.id, ?_⟩
  rw [onMessage_temperature st2 sid msg now htype]
  exact broadcastToClients_delivers _ _ sid sc hfind hopen hok hmem hnd

/-- Witness for C8: the sender of `msgTempA` receives its own
temperature-update broadcast. -/
theorem C8_devices_are_subscribers_witness :
    1 ∈ (onConnection baseState okClient).connectedClients ∧
    inboxOf (onMessage baseState 1 (Frame.parsed msgTempA) 100) 1
      = some [stringify (OutboundMsg.temperatureUpdate (mkReading msgTempA 100) 100)] :=
  C8_devices_are_subscribers baseState okClient baseState 1 msgTempA 100 okClient
    (by decide) (by decide) (by decide) (by decide) (by decide) (by decide)

/-- C9: `OnClose` is idempotent: closing the same connection twice
leaves the whole gateway state (Subscriber Set, registry, every
connection) exactly as closing it once does, and closing a connection
that is not in the Subscriber Set is a no-op. -/
theorem C9_onClose_idempotent (st : GatewayState) (id : Nat) :
    onClose (onClose st id) id = onClose st id ∧
    (id ∉ st.connectedClients → onClose st id = st) := by
  constructor
  · show ({ { st with connectedClients := setDelete st.connectedClients id } with
        connectedClients := setDelete (setDelete st.connectedClients id) id } : GatewayState)
      = { st with connectedClients := setDelete st.connectedClients id }
    rw [setDelete_idem]
  · intro h
    show ({ st with connectedClients := setDelete st.connectedClients id } : GatewayState) = st
    rw [setDelete_of_not_mem st.connectedClients id h]

/-- Witness for C9: double close of subscriber 1, and a close of the
never-connected handle 2, on the one-subscriber gateway. -/
theorem C9_onClose_idempotent_witness :
    onClose (onClose baseState 1) 1 = onClose baseState 1 ∧
    onClose baseState 2 = baseState :=
  ⟨(C9_onClose_idempotent baseState 1).1,
   (C9_onClose_idempotent baseState 2).2 (by decide)⟩

/-- C10: for every temperature frame accepted for processing, the
registry is updated before the broadcast and the broadcast's `data` field
is exactly the stored reading: there is one `DeviceData` value that both
`GetLatest` of the frame's deviceId returns immediately after processing
and every open healthy subscriber received inside the serialized
temperature-update. -/
theorem C10_broadcast_matches_registry (st : GatewayState) (sid : Nat) (msg : InboundMsg)
    (now : Int) (mid : Nat) (mc : Client)
    (htype : msg.type = JSVal.str "temperature")
    (hfind : findClient st.clients mid = some mc)
    (hopen : mc.readyState = 1) (hok : mc.sendFails = false)
    (hmem : mid ∈ st.connectedClients) (hnd : st.connectedClients.Nodup) :
    ∃ dd : DeviceData,
      mapGet (onMessage st sid (Frame.parsed msg) now).deviceLatestData msg.deviceId
        = some dd ∧
      inboxOf (onMessage st sid (Frame.parsed msg) now) mid
        = some (mc.inbox ++ [stringify (OutboundMsg.temperatureUpdate dd now)]) := by
  refine ⟨mkReading msg now, ?_, ?_⟩
  · rw [onMessage_temperature st sid msg now htype]
    rw [show (broadcastToClients
        { st with deviceLatestData := mapSet st.deviceLatestData msg.deviceId (mkReading msg now) }
        (OutboundMsg.temperatureUpdate (mkReading msg now) now)).deviceLatestData
        = mapSet st.deviceLatestData msg.deviceId (mkReading msg now)
      from broadcastToClients_deviceLatestData _ _]
    exact mapGet_mapSet_self _ _ _
  · rw [onMessage_temperature st sid msg now htype]
    exact broadcastToClients_delivers _ _ mid mc hfind hopen hok hmem hnd

/-- Witness for C10: frame `msgTempA` on the one-subscriber gateway. -/
theorem C10_broadcast_matches_registry_witness :
    ∃ dd : DeviceData,
      mapGet (onMessage baseState 1 (Frame.parsed msgTempA) 100).deviceLatestData
          (JSVal.str "D1")
        = some dd ∧
      inboxOf (onMessage baseState 1 (Frame.parsed msgTempA) 100) 1
        = some ([] ++ [stringify (OutboundMsg.temperatureUpdate dd 100)]) :=
  C10_broadcast_matches_registry baseState 1 msgTempA 100 1 okClient
    (by decide) (by decide) (by decide) (by decide) (by decide) (by decide)

end TempGateway
